import Mathlib

/-!
Verification of the status-derivation and event-classification core of
`crates/router/src/types/transformers.rs` (hyperswitch router crate).

The enum variant sets are taken from the exhaustive `match` expressions in
that file (none of the relevant matches uses a wildcard over `AttemptStatus`,
`IntentStatus`, `DisputeStatus` or `Connector`, so the matches enumerate the
full variant sets).  Variants gated behind `cfg(feature = "dummy_connector")`
are omitted, matching a default build.  The `IncomingWebhookEvent` tag space
is matched with a wildcard in the source; its declaration lives outside the
unit under study, so the universe below carries the explicitly matched tags
plus representative tags of the other domains described by the spec — every
unmatched tag flows through the same wildcard arm, so the theorems do not
depend on the exact complement.
-/

namespace Hyperswitch

/-- Fine-grained lifecycle state of a single payment attempt
(`storage_enums::AttemptStatus`); the 24 variants are those enumerated by
the exhaustive match in `ForeignFrom<AttemptStatus> for IntentStatus`. -/
inductive AttemptStatus
  | Started
  | AuthenticationFailed
  | RouterDeclined
  | AuthenticationPending
  | AuthenticationSuccessful
  | Authorized
  | AuthorizationFailed
  | Charged
  | Authorizing
  | CodInitiated
  | Voided
  | VoidInitiated
  | VoidFailed
  | AutoRefunded
  | PartialCharged
  | PartialChargedAndChargeable
  | Unresolved
  | PaymentMethodAwaited
  | ConfirmationAwaited
  | CaptureInitiated
  | CaptureFailed
  | Pending
  | DeviceDataCollectionPending
  | Failure
deriving DecidableEq, Repr

/-- Coarse merchant-visible status of a payment intent
(`storage_enums::IntentStatus`, identified with `api_enums::IntentStatus`). -/
inductive IntentStatus
  | Succeeded
  | Failed
  | Cancelled
  | Processing
  | RequiresCustomerAction
  | RequiresMerchantAction
  | RequiresPaymentMethod
  | RequiresConfirmation
  | RequiresCapture
  | PartiallyCaptured
  | PartiallyCapturedAndCapturable
deriving DecidableEq, Repr

/-- Restricted state of a single partial capture
(`storage_enums::CaptureStatus`). -/
inductive CaptureStatus
  | Started
  | Charged
  | Pending
  | Failed
deriving DecidableEq, Repr

/-- The structured API errors produced by this unit
(`errors::ApiErrorResponse`, restricted to the variants it constructs). -/
inductive ApiErrorResponse
  | PreconditionFailed (message : String)
  | InvalidRequestData (message : String)
deriving DecidableEq, Repr

/-- Validation errors (`common_utils::errors::ValidationError`, restricted
to the variants this unit constructs). -/
inductive ValidationError
  | IncorrectValueProvided (field_name : String)
  | InvalidValue (message : String)
deriving DecidableEq, Repr

/-- `impl ForeignFrom<storage_enums::AttemptStatus> for storage_enums::IntentStatus`,
transformers.rs lines 101-139, translated arm by arm. -/
def IntentStatus.foreign_from (s : AttemptStatus) : IntentStatus :=
  match s with
  | .Charged | .AutoRefunded => .Succeeded
  | .ConfirmationAwaited => .RequiresConfirmation
  | .PaymentMethodAwaited => .RequiresPaymentMethod
  | .Authorized => .RequiresCapture
  | .AuthenticationPending | .DeviceDataCollectionPending => .RequiresCustomerAction
  | .Unresolved => .RequiresMerchantAction
  | .PartialCharged => .PartiallyCaptured
  | .PartialChargedAndChargeable => .PartiallyCapturedAndCapturable
  | .Started | .AuthenticationSuccessful | .Authorizing | .CodInitiated
  | .VoidInitiated | .CaptureInitiated | .Pending => .Processing
  | .AuthenticationFailed | .AuthorizationFailed | .VoidFailed
  | .RouterDeclined | .CaptureFailed | .Failure => .Failed
  | .Voided => .Cancelled

/-- The precondition-failure message of the capture-status narrowing,
verbatim from transformers.rs line 174. -/
def captureWhitelistMessage : String :=
  "AttemptStatus must be one of these for multiple partial captures [Charged, PartialCharged, Pending, CaptureInitiated, Failure, CaptureFailed]"

/-- `impl ForeignTryFrom<storage_enums::AttemptStatus> for storage_enums::CaptureStatus`,
transformers.rs lines 141-179, translated arm by arm. -/
def CaptureStatus.foreign_try_from (attempt_status : AttemptStatus) :
    Except ApiErrorResponse CaptureStatus :=
  match attempt_status with
  | .Charged | .PartialCharged => .ok .Charged
  | .Pending | .CaptureInitiated => .ok .Pending
  | .Failure | .CaptureFailed => .ok .Failed
  | .Started | .AuthenticationFailed | .RouterDeclined | .AuthenticationPending
  | .AuthenticationSuccessful | .Authorized | .AuthorizationFailed | .Authorizing
  | .CodInitiated | .Voided | .VoidInitiated | .VoidFailed | .AutoRefunded
  | .Unresolved | .PaymentMethodAwaited | .ConfirmationAwaited
  | .DeviceDataCollectionPending | .PartialChargedAndChargeable =>
      .error (.PreconditionFailed captureWhitelistMessage)

/-- Refund lifecycle state (`storage_enums::RefundStatus`); the five
variants are those enumerated by the exhaustive match in
`ForeignFrom<RefundStatus> for Option<EventType>`. -/
inductive RefundStatus
  | Success
  | Failure
  | ManualReview
  | Pending
  | TransactionFailure
deriving DecidableEq, Repr

/-- Mandate lifecycle state (`storage_enums::MandateStatus`); the four
variants are those enumerated by the exhaustive match in
`ForeignFrom<MandateStatus> for Option<EventType>`. -/
inductive MandateStatus
  | Active
  | Revoked
  | Inactive
  | Pending
deriving DecidableEq, Repr

/-- Dispute lifecycle state (`storage_enums::DisputeStatus`); the seven
variants are those enumerated by the exhaustive match in
`ForeignFrom<DisputeStatus> for EventType`. -/
inductive DisputeStatus
  | DisputeOpened
  | DisputeExpired
  | DisputeAccepted
  | DisputeCancelled
  | DisputeChallenged
  | DisputeWon
  | DisputeLost
deriving DecidableEq, Repr

/-- Notification-trigger tag (`storage_enums::EventType`, restricted to the
variants this unit constructs). -/
inductive EventType
  | PaymentSucceeded
  | PaymentFailed
  | PaymentProcessing
  | ActionRequired
  | PaymentCancelled
  | PaymentCaptured
  | PaymentAuthorized
  | RefundSucceeded
  | RefundFailed
  | DisputeOpened
  | DisputeExpired
  | DisputeAccepted
  | DisputeCancelled
  | DisputeChallenged
  | DisputeWon
  | DisputeLost
  | MandateActive
  | MandateRevoked
deriving DecidableEq, Repr

/-- Connector-agnostic inbound webhook tag
(`api_models::webhooks::IncomingWebhookEvent`).  The declaration lives
outside the unit under study; the eleven tags matched explicitly in
transformers.rs are listed first, followed by representative tags of the
payment domain and other unmatched tags described by the spec's wide tag
space — the source matches every tag outside the explicit ones with a
single wildcard arm, so the results are insensitive to the exact
complement. -/
inductive IncomingWebhookEvent
  | RefundSuccess
  | RefundFailure
  | MandateActive
  | MandateRevoked
  | DisputeOpened
  | DisputeExpired
  | DisputeAccepted
  | DisputeCancelled
  | DisputeChallenged
  | DisputeWon
  | DisputeLost
  | PaymentIntentFailure
  | PaymentIntentSuccess
  | PaymentIntentProcessing
  | PaymentIntentPartiallyFunded
  | PaymentIntentCancelled
  | PaymentIntentAuthorizationSuccess
  | PaymentIntentAuthorizationFailure
  | PaymentIntentCaptureSuccess
  | PaymentIntentCaptureFailure
  | PaymentActionRequired
  | EventNotSupported
  | SourceChargeable
  | SourceTransactionCreated
  | EndpointVerification
  | ExternalAuthenticationARes
  | FrmApproved
  | FrmRejected
deriving DecidableEq, Repr

/-- `impl ForeignFrom<api_enums::IntentStatus> for Option<storage_enums::EventType>`,
transformers.rs lines 391-415, translated arm by arm. -/
def eventTypeOfIntentStatus (value : IntentStatus) : Option EventType :=
  match value with
  | .Succeeded => some .PaymentSucceeded
  | .Failed => some .PaymentFailed
  | .Processing => some .PaymentProcessing
  | .RequiresMerchantAction | .RequiresCustomerAction => some .ActionRequired
  | .Cancelled => some .PaymentCancelled
  | .PartiallyCaptured | .PartiallyCapturedAndCapturable => some .PaymentCaptured
  | .RequiresCapture => some .PaymentAuthorized
  | .RequiresPaymentMethod | .RequiresConfirmation => none

/-- `impl ForeignFrom<storage_enums::RefundStatus> for Option<storage_enums::EventType>`,
transformers.rs lines 542-552, translated arm by arm. -/
def eventTypeOfRefundStatus (value : RefundStatus) : Option EventType :=
  match value with
  | .Success => some .RefundSucceeded
  | .Failure => some .RefundFailed
  | .ManualReview | .Pending | .TransactionFailure => none

/-- `impl ForeignFrom<storage_enums::DisputeStatus> for storage_enums::EventType`,
transformers.rs lines 554-566, translated arm by arm. -/
def EventType.foreign_from (value : DisputeStatus) : EventType :=
  match value with
  | .DisputeOpened => .DisputeOpened
  | .DisputeExpired => .DisputeExpired
  | .DisputeAccepted => .DisputeAccepted
  | .DisputeCancelled => .DisputeCancelled
  | .DisputeChallenged => .DisputeChallenged
  | .DisputeWon => .DisputeWon
  | .DisputeLost => .DisputeLost

/-- `impl ForeignFrom<storage_enums::MandateStatus> for Option<storage_enums::EventType>`,
transformers.rs lines 568-576, translated arm by arm. -/
def eventTypeOfMandateStatus (value : MandateStatus) : Option EventType :=
  match value with
  | .Active => some .MandateActive
  | .Revoked => some .MandateRevoked
  | .Inactive | .Pending => none

/-- `impl ForeignTryFrom<IncomingWebhookEvent> for storage_enums::RefundStatus`,
transformers.rs lines 578-592, translated arm by arm (wildcard included). -/
def RefundStatus.foreign_try_from (value : IncomingWebhookEvent) :
    Except ValidationError RefundStatus :=
  match value with
  | .RefundSuccess => .ok .Success
  | .RefundFailure => .ok .Failure
  | _ => .error (.IncorrectValueProvided "incoming_webhook_event_type")

/-- `impl ForeignTryFrom<IncomingWebhookEvent> for storage_enums::MandateStatus`,
transformers.rs lines 594-608, translated arm by arm (wildcard included). -/
def MandateStatus.foreign_try_from (value : IncomingWebhookEvent) :
    Except ValidationError MandateStatus :=
  match value with
  | .MandateActive => .ok .Active
  | .MandateRevoked => .ok .Revoked
  | _ => .error (.IncorrectValueProvided "incoming_webhook_event_type")

/-- `impl ForeignTryFrom<IncomingWebhookEvent> for storage_enums::DisputeStatus`,
transformers.rs lines 727-752, translated arm by arm (wildcard included). -/
def DisputeStatus.foreign_try_from (value : IncomingWebhookEvent) :
    Except ValidationError DisputeStatus :=
  match value with
  | .DisputeOpened => .ok .DisputeOpened
  | .DisputeExpired => .ok .DisputeExpired
  | .DisputeAccepted => .ok .DisputeAccepted
  | .DisputeCancelled => .ok .DisputeCancelled
  | .DisputeChallenged => .ok .DisputeChallenged
  | .DisputeWon => .ok .DisputeWon
  | .DisputeLost => .ok .DisputeLost
  | _ => .error (.IncorrectValueProvided "incoming_webhook_event")

/-- Connector identifiers (`api_enums::Connector`); the 59 variants are
those enumerated by the exhaustive match in
`ForeignTryFrom<Connector> for RoutableConnectors` (the variants gated
behind `cfg(feature = "dummy_connector")` are omitted, as in a default
build). -/
inductive Connector
  | Aci | Adyen | Airwallex | Authorizedotnet | Bambora | Bankofamerica
  | Billwerk | Bitpay | Bluesnap | Boku | Braintree | Cashtocode | Checkout
  | Coinbase | Cryptopay | Cybersource | Dlocal | Ebanx | Fiserv | Forte
  | Globalpay | Globepay | Gocardless | Gpayments | Helcim | Iatapay | Klarna
  | Mollie | Multisafepay | Netcetera | Nexinets | Nmi | Noon | Nuvei
  | Opennode | Payme | Payone | Paypal | Payu | Placetopay | Plaid
  | Powertranz | Prophetpay | Rapyd | Shift4 | Signifyd | Riskified | Square
  | Stax | Stripe | Trustpay | Tsys | Volt | Wise | Worldline | Worldpay
  | Zen | Zsl | Threedsecureio
deriving DecidableEq, Repr

/-- Routable connector identifiers (`common_enums::RoutableConnectors`,
restricted to the variants this unit constructs). -/
inductive RoutableConnectors
  | Aci | Adyen | Airwallex | Authorizedotnet | Bambora | Bankofamerica
  | Billwerk | Bitpay | Bluesnap | Boku | Braintree | Cashtocode | Checkout
  | Coinbase | Cryptopay | Cybersource | Dlocal | Ebanx | Fiserv | Forte
  | Globalpay | Globepay | Gocardless | Helcim | Iatapay | Klarna
  | Mollie | Multisafepay | Nexinets | Nmi | Noon | Nuvei
  | Opennode | Payme | Payone | Paypal | Payu | Placetopay
  | Powertranz | Prophetpay | Rapyd | Shift4 | Square
  | Stax | Stripe | Trustpay | Tsys | Volt | Wise | Worldline | Worldpay
  | Zen | Zsl
deriving DecidableEq, Repr

/-- Rust variant name of a `Connector` value. -/
def Connector.name : Connector → String
  | .Aci => "Aci" | .Adyen => "Adyen" | .Airwallex => "Airwallex"
  | .Authorizedotnet => "Authorizedotnet" | .Bambora => "Bambora"
  | .Bankofamerica => "Bankofamerica" | .Billwerk => "Billwerk"
  | .Bitpay => "Bitpay" | .Bluesnap => "Bluesnap" | .Boku => "Boku"
  | .Braintree => "Braintree" | .Cashtocode => "Cashtocode"
  | .Checkout => "Checkout" | .Coinbase => "Coinbase"
  | .Cryptopay => "Cryptopay" | .Cybersource => "Cybersource"
  | .Dlocal => "Dlocal" | .Ebanx => "Ebanx" | .Fiserv => "Fiserv"
  | .Forte => "Forte" | .Globalpay => "Globalpay" | .Globepay => "Globepay"
  | .Gocardless => "Gocardless" | .Gpayments => "Gpayments"
  | .Helcim => "Helcim" | .Iatapay => "Iatapay" | .Klarna => "Klarna"
  | .Mollie => "Mollie" | .Multisafepay => "Multisafepay"
  | .Netcetera => "Netcetera" | .Nexinets => "Nexinets" | .Nmi => "Nmi"
  | .Noon => "Noon" | .Nuvei => "Nuvei" | .Opennode => "Opennode"
  | .Payme => "Payme" | .Payone => "Payone" | .Paypal => "Paypal"
  | .Payu => "Payu" | .Placetopay => "Placetopay" | .Plaid => "Plaid"
  | .Powertranz => "Powertranz" | .Prophetpay => "Prophetpay"
  | .Rapyd => "Rapyd" | .Shift4 => "Shift4" | .Signifyd => "Signifyd"
  | .Riskified => "Riskified" | .Square => "Square" | .Stax => "Stax"
  | .Stripe => "Stripe" | .Trustpay => "Trustpay" | .Tsys => "Tsys"
  | .Volt => "Volt" | .Wise => "Wise" | .Worldline => "Worldline"
  | .Worldpay => "Worldpay" | .Zen => "Zen" | .Zsl => "Zsl"
  | .Threedsecureio => "Threedsecureio"

/-- Rust variant name of a `RoutableConnectors` value. -/
def RoutableConnectors.name : RoutableConnectors → String
  | .Aci => "Aci" | .Adyen => "Adyen" | .Airwallex => "Airwallex"
  | .Authorizedotnet => "Authorizedotnet" | .Bambora => "Bambora"
  | .Bankofamerica => "Bankofamerica" | .Billwerk => "Billwerk"
  | .Bitpay => "Bitpay" | .Bluesnap => "Bluesnap" | .Boku => "Boku"
  | .Braintree => "Braintree" | .Cashtocode => "Cashtocode"
  | .Checkout => "Checkout" | .Coinbase => "Coinbase"
  | .Cryptopay => "Cryptopay" | .Cybersource => "Cybersource"
  | .Dlocal => "Dlocal" | .Ebanx => "Ebanx" | .Fiserv => "Fiserv"
  | .Forte => "Forte" | .Globalpay => "Globalpay" | .Globepay => "Globepay"
  | .Gocardless => "Gocardless"
  | .Helcim => "Helcim" | .Iatapay => "Iatapay" | .Klarna => "Klarna"
  | .Mollie => "Mollie" | .Multisafepay => "Multisafepay"
  | .Nexinets => "Nexinets" | .Nmi => "Nmi"
  | .Noon => "Noon" | .Nuvei => "Nuvei" | .Opennode => "Opennode"
  | .Payme => "Payme" | .Payone => "Payone" | .Paypal => "Paypal"
  | .Payu => "Payu" | .Placetopay => "Placetopay"
  | .Powertranz => "Powertranz" | .Prophetpay => "Prophetpay"
  | .Rapyd => "Rapyd" | .Shift4 => "Shift4" | .Square => "Square"
  | .Stax => "Stax" | .Stripe => "Stripe" | .Trustpay => "Trustpay"
  | .Tsys => "Tsys" | .Volt => "Volt" | .Wise => "Wise"
  | .Worldline => "Worldline" | .Worldpay => "Worldpay" | .Zen => "Zen"
  | .Zsl => "Zsl"

/-- `impl ForeignTryFrom<api_enums::Connector> for common_enums::RoutableConnectors`,
transformers.rs lines 205-310, translated arm by arm (error messages
verbatim). -/
def RoutableConnectors.foreign_try_from (from_c : Connector) :
    Except ValidationError RoutableConnectors :=
  match from_c with
  | .Aci => .ok .Aci
  | .Adyen => .ok .Adyen
  | .Airwallex => .ok .Airwallex
  | .Authorizedotnet => .ok .Authorizedotnet
  | .Bambora => .ok .Bambora
  | .Bankofamerica => .ok .Bankofamerica
  | .Billwerk => .ok .Billwerk
  | .Bitpay => .ok .Bitpay
  | .Bluesnap => .ok .Bluesnap
  | .Boku => .ok .Boku
  | .Braintree => .ok .Braintree
  | .Cashtocode => .ok .Cashtocode
  | .Checkout => .ok .Checkout
  | .Coinbase => .ok .Coinbase
  | .Cryptopay => .ok .Cryptopay
  | .Cybersource => .ok .Cybersource
  | .Dlocal => .ok .Dlocal
  | .Ebanx => .ok .Ebanx
  | .Fiserv => .ok .Fiserv
  | .Forte => .ok .Forte
  | .Globalpay => .ok .Globalpay
  | .Globepay => .ok .Globepay
  | .Gocardless => .ok .Gocardless
  | .Gpayments => .error (.InvalidValue "gpayments is not a routable connector")
  | .Helcim => .ok .Helcim
  | .Iatapay => .ok .Iatapay
  | .Klarna => .ok .Klarna
  | .Mollie => .ok .Mollie
  | .Multisafepay => .ok .Multisafepay
  | .Netcetera => .error (.InvalidValue "netcetera is not a routable connector")
  | .Nexinets => .ok .Nexinets
  | .Nmi => .ok .Nmi
  | .Noon => .ok .Noon
  | .Nuvei => .ok .Nuvei
  | .Opennode => .ok .Opennode
  | .Payme => .ok .Payme
  | .Payone => .ok .Payone
  | .Paypal => .ok .Paypal
  | .Payu => .ok .Payu
  | .Placetopay => .ok .Placetopay
  | .Plaid => .error (.InvalidValue "plaid is not a routable connector")
  | .Powertranz => .ok .Powertranz
  | .Prophetpay => .ok .Prophetpay
  | .Rapyd => .ok .Rapyd
  | .Shift4 => .ok .Shift4
  | .Signifyd => .error (.InvalidValue "signifyd is not a routable connector")
  | .Riskified => .error (.InvalidValue "riskified is not a routable connector")
  | .Square => .ok .Square
  | .Stax => .ok .Stax
  | .Stripe => .ok .Stripe
  | .Trustpay => .ok .Trustpay
  | .Tsys => .ok .Tsys
  | .Volt => .ok .Volt
  | .Wise => .ok .Wise
  | .Worldline => .ok .Worldline
  | .Worldpay => .ok .Worldpay
  | .Zen => .ok .Zen
  | .Zsl => .ok .Zsl
  | .Threedsecureio => .error (.InvalidValue "threedsecureio is not a routable connector")

/-- The six connector variants the source rejects as not routable. -/
def nonRoutableConnectors : List Connector :=
  [.Gpayments, .Netcetera, .Plaid, .Signifyd, .Riskified, .Threedsecureio]

/-- Modelled from the spec: the HTTP header map handed to the trusted
header validator (the `HeaderMap` type is supplied by the transport layer,
outside the unit under study).  Modelled as an association list from header
name to header value. -/
abbrev HeaderMap : Type := List (String × String)

/-- Modelled from the spec: `get_header_value_by_key`, declared elsewhere
in the router crate — looks an optional header up by name (its UTF-8
failure path is outside this pure model; Lean strings are always valid
text). -/
def getHeaderValue (key : String) (headers : HeaderMap) : Option String :=
  (headers.find? (fun p => p.1 == key)).map Prod.snd

/-- Modelled from the spec: the closed `api_enums::PaymentSource` enum,
declared outside the unit under study.  Carries the externally assertable
sources plus sources reserved for internal use. -/
inductive PaymentSource
  | MerchantServer
  | Postman
  | Dashboard
  | Sdk
  | Webhook
  | ExternalAuthenticator
deriving DecidableEq, Repr

/-- Modelled from the spec: `PaymentSource::is_for_internal_use_only`,
declared outside the unit under study — flags the sources reserved for
internal callers. -/
def PaymentSource.is_for_internal_use_only : PaymentSource → Bool
  | .Webhook | .ExternalAuthenticator => true
  | .MerchantServer | .Postman | .Dashboard | .Sdk => false

/-- Modelled from the spec: `parse_enum("PaymentSource")` — parses the
header string into the closed enum, failing on any other string. -/
def PaymentSource.parse : String → Option PaymentSource
  | "merchant_server" => some .MerchantServer
  | "postman" => some .Postman
  | "dashboard" => some .Dashboard
  | "sdk" => some .Sdk
  | "webhook" => some .Webhook
  | "external_authenticator" => some .ExternalAuthenticator
  | _ => none

/-- Modelled from the spec: the header-name constants
(`X_PAYMENT_CONFIRM_SOURCE`, `X_HS_LATENCY`, `X_CLIENT_SOURCE`,
`X_CLIENT_VERSION`), declared elsewhere in the router crate. -/
def X_PAYMENT_CONFIRM_SOURCE : String := "X-Payment-Confirm-Source"

/-- Modelled from the spec: latency-tracing header name. -/
def X_HS_LATENCY : String := "X-Hs-Latency"

/-- Modelled from the spec: client-source header name. -/
def X_CLIENT_SOURCE : String := "X-Client-Source"

/-- Modelled from the spec: client-version header name. -/
def X_CLIENT_VERSION : String := "X-Client-Version"

/-- Validated projection of the trusted request headers
(`payments::HeaderPayload`). -/
structure HeaderPayload where
  payment_confirm_source : Option PaymentSource
  client_source : Option String
  client_version : Option String
  x_hs_latency : Option Bool
deriving DecidableEq, Repr

/-- The `InvalidRequestData` message used by the header validator,
verbatim from transformers.rs lines 1026 and 1040. -/
def invalidConfirmSourceMessage : String :=
  "Invalid data received in payment_confirm_source header"

/-- First step of `ForeignTryFrom<&HeaderMap> for HeaderPayload`
(transformers.rs lines 1019-1033): read the optional
payment-confirm-source header and parse it into the enum, failing with
`InvalidRequestData` when the string does not parse. -/
def parsePaymentConfirmSource (headers : HeaderMap) :
    Except ApiErrorResponse (Option PaymentSource) :=
  match getHeaderValue X_PAYMENT_CONFIRM_SOURCE headers with
  | none => .ok none
  | some s =>
    match PaymentSource.parse s with
    | some v => .ok (some v)
    | none => .error (.InvalidRequestData invalidConfirmSourceMessage)

/-- The `is_some_and(.. is_for_internal_use_only ..)` guard of
transformers.rs lines 1034-1043. -/
def confirmSourceIsInternal : Option PaymentSource → Bool
  | some p => p.is_for_internal_use_only
  | none => false

/-- `impl ForeignTryFrom<&HeaderMap> for payments::HeaderPayload`,
transformers.rs lines 1016-1061, translated step by step: parse the
confirm-source header, reject internal-only sources, read the latency flag
(true exactly on the literal value "true") and the opaque client
source/version headers, and assemble the payload. -/
def HeaderPayload.foreign_try_from (headers : HeaderMap) :
    Except ApiErrorResponse HeaderPayload :=
  match parsePaymentConfirmSource headers with
  | .error e => .error e
  | .ok payment_confirm_source =>
    if confirmSourceIsInternal payment_confirm_source then
      .error (.InvalidRequestData invalidConfirmSourceMessage)
    else
      .ok
        { payment_confirm_source := payment_confirm_source
          client_source := getHeaderValue X_CLIENT_SOURCE headers
          client_version := getHeaderValue X_CLIENT_VERSION headers
          x_hs_latency := some (getHeaderValue X_HS_LATENCY headers == some "true") }

instance {ε α : Type} [DecidableEq ε] [DecidableEq α] : DecidableEq (Except ε α) :=
  fun x y =>
    match x, y with
    | .ok a, .ok b =>
      if h : a = b then isTrue (by rw [h])
      else isFalse (by intro hc; cases hc; exact h rfl)
    | .ok _, .error _ => isFalse (by intro hc; cases hc)
    | .error _, .ok _ => isFalse (by intro hc; cases hc)
    | .error a, .error b =>
      if h : a = b then isTrue (by rw [h])
      else isFalse (by intro hc; cases hc; exact h rfl)

/-- Indicator counting a successful webhook classification. -/
def okIndicator {α : Type} (r : Except ValidationError α) : Nat :=
  match r with
  | .ok _ => 1
  | .error _ => 0

/-- Whether a webhook classification failed with `IncorrectValueProvided`. -/
def isIncorrectValueError {α : Type} (r : Except ValidationError α) : Bool :=
  match r with
  | .error (.IncorrectValueProvided _) => true
  | _ => false

/-- C1: the attempt-to-intent status aggregation is total (it is a Lean
function over the closed `AttemptStatus` enumeration) and sends every
variant to exactly the intent status of the bucketing policy: terminal
successes to `Succeeded`, awaited confirmation / payment method to the
corresponding requirement, `Authorized` to `RequiresCapture`,
customer-action states to `RequiresCustomerAction`, `Unresolved` to
`RequiresMerchantAction`, partial-capture states to the two partial
statuses, the seven in-flight states to `Processing`, the six failure
states to `Failed`, and `Voided` to `Cancelled`. -/
theorem attemptStatus_to_intentStatus_bucketing :
    IntentStatus.foreign_from .Charged = .Succeeded ∧
    IntentStatus.foreign_from .AutoRefunded = .Succeeded ∧
    IntentStatus.foreign_from .ConfirmationAwaited = .RequiresConfirmation ∧
    IntentStatus.foreign_from .PaymentMethodAwaited = .RequiresPaymentMethod ∧
    IntentStatus.foreign_from .Authorized = .RequiresCapture ∧
    IntentStatus.foreign_from .AuthenticationPending = .RequiresCustomerAction ∧
    IntentStatus.foreign_from .DeviceDataCollectionPending = .RequiresCustomerAction ∧
    IntentStatus.foreign_from .Unresolved = .RequiresMerchantAction ∧
    IntentStatus.foreign_from .PartialCharged = .PartiallyCaptured ∧
    IntentStatus.foreign_from .PartialChargedAndChargeable =
      .PartiallyCapturedAndCapturable ∧
    IntentStatus.foreign_from .Started = .Processing ∧
    IntentStatus.foreign_from .Authorizing = .Processing ∧
    IntentStatus.foreign_from .AuthenticationSuccessful = .Processing ∧
    IntentStatus.foreign_from .CodInitiated = .Processing ∧
    IntentStatus.foreign_from .VoidInitiated = .Processing ∧
    IntentStatus.foreign_from .CaptureInitiated = .Processing ∧
    IntentStatus.foreign_from .Pending = .Processing ∧
    IntentStatus.foreign_from .AuthenticationFailed = .Failed ∧
    IntentStatus.foreign_from .AuthorizationFailed = .Failed ∧
    IntentStatus.foreign_from .VoidFailed = .Failed ∧
    IntentStatus.foreign_from .RouterDeclined = .Failed ∧
    IntentStatus.foreign_from .CaptureFailed = .Failed ∧
    IntentStatus.foreign_from .Failure = .Failed ∧
    IntentStatus.foreign_from .Voided = .Cancelled := by
  decide

/-- C2: the capture-status narrowing returns `Ok` exactly on the six
whitelisted attempt statuses (`Charged`/`PartialCharged` to `Charged`,
`Pending`/`CaptureInitiated` to `Pending`, `Failure`/`CaptureFailed` to
`Failed`) and rejects every other attempt status with a
`PreconditionFailed` error whose message names the allowed set. -/
theorem attemptStatus_to_captureStatus_whitelist (s : AttemptStatus) :
    CaptureStatus.foreign_try_from s =
      if s = .Charged ∨ s = .PartialCharged then .ok .Charged
      else if s = .Pending ∨ s = .CaptureInitiated then .ok .Pending
      else if s = .Failure ∨ s = .CaptureFailed then .ok .Failed
      else .error (.PreconditionFailed captureWhitelistMessage) := by
  cases s <;> rfl

/-- C4: the refund-domain webhook mapper accepts exactly the tags
`RefundSuccess` (to `Success`) and `RefundFailure` (to `Failure`) and
rejects every other incoming webhook tag, mandate and dispute tags
included, with `IncorrectValueProvided` on field
"incoming_webhook_event_type". -/
theorem webhook_to_refundStatus_domain (e : IncomingWebhookEvent) :
    RefundStatus.foreign_try_from e =
      if e = .RefundSuccess then .ok .Success
      else if e = .RefundFailure then .ok .Failure
      else .error (.IncorrectValueProvided "incoming_webhook_event_type") := by
  cases e <;> rfl

/-- C5: the dispute-domain webhook mapper sends each of the seven
dispute-lifecycle tags to the same-named `DisputeStatus` variant and
rejects every other incoming webhook tag with `IncorrectValueProvided` on
field "incoming_webhook_event". -/
theorem webhook_to_disputeStatus_domain (e : IncomingWebhookEvent) :
    DisputeStatus.foreign_try_from e =
      if e = .DisputeOpened then .ok .DisputeOpened
      else if e = .DisputeExpired then .ok .DisputeExpired
      else if e = .DisputeAccepted then .ok .DisputeAccepted
      else if e = .DisputeCancelled then .ok .DisputeCancelled
      else if e = .DisputeChallenged then .ok .DisputeChallenged
      else if e = .DisputeWon then .ok .DisputeWon
      else if e = .DisputeLost then .ok .DisputeLost
      else .error (.IncorrectValueProvided "incoming_webhook_event") := by
  cases e <;> rfl

/-- C6: the intent-status event classifier returns `PaymentSucceeded` for
`Succeeded`, `PaymentFailed` for `Failed`, `PaymentProcessing` for
`Processing`, `ActionRequired` for the two action-required statuses,
`PaymentCancelled` for `Cancelled`, `PaymentCaptured` for the two
partial-capture statuses, `PaymentAuthorized` for `RequiresCapture`, and
`none` exactly for `RequiresPaymentMethod` and `RequiresConfirmation`. -/
theorem intentStatus_event_classification :
    eventTypeOfIntentStatus .Succeeded = some .PaymentSucceeded ∧
    eventTypeOfIntentStatus .Failed = some .PaymentFailed ∧
    eventTypeOfIntentStatus .Processing = some .PaymentProcessing ∧
    eventTypeOfIntentStatus .RequiresMerchantAction = some .ActionRequired ∧
    eventTypeOfIntentStatus .RequiresCustomerAction = some .ActionRequired ∧
    eventTypeOfIntentStatus .Cancelled = some .PaymentCancelled ∧
    eventTypeOfIntentStatus .PartiallyCaptured = some .PaymentCaptured ∧
    eventTypeOfIntentStatus .PartiallyCapturedAndCapturable =
      some .PaymentCaptured ∧
    eventTypeOfIntentStatus .RequiresCapture = some .PaymentAuthorized ∧
    eventTypeOfIntentStatus .RequiresPaymentMethod = none ∧
    eventTypeOfIntentStatus .RequiresConfirmation = none := by
  decide

/-- C7: the dispute-status event classifier is total over the seven
dispute statuses (it returns a plain `EventType`, never an absent event)
and sends each status to the identically named dispute event tag. -/
theorem disputeStatus_event_total :
    EventType.foreign_from .DisputeOpened = .DisputeOpened ∧
    EventType.foreign_from .DisputeExpired = .DisputeExpired ∧
    EventType.foreign_from .DisputeAccepted = .DisputeAccepted ∧
    EventType.foreign_from .DisputeCancelled = .DisputeCancelled ∧
    EventType.foreign_from .DisputeChallenged = .DisputeChallenged ∧
    EventType.foreign_from .DisputeWon = .DisputeWon ∧
    EventType.foreign_from .DisputeLost = .DisputeLost := by
  decide

/-- C9: the connector-to-routable conversion rejects exactly the six
non-routable connectors (`Gpayments`, `Netcetera`, `Plaid`, `Signifyd`,
`Riskified`, `Threedsecureio`) with an `InvalidValue` error whose message
names the connector as not routable, and maps every other connector `Ok`
to the same-named `RoutableConnectors` variant. -/
theorem connector_to_routable_policy (c : Connector) :
    if c = .Gpayments then
      RoutableConnectors.foreign_try_from c =
        .error (.InvalidValue "gpayments is not a routable connector")
    else if c = .Netcetera then
      RoutableConnectors.foreign_try_from c =
        .error (.InvalidValue "netcetera is not a routable connector")
    else if c = .Plaid then
      RoutableConnectors.foreign_try_from c =
        .error (.InvalidValue "plaid is not a routable connector")
    else if c = .Signifyd then
      RoutableConnectors.foreign_try_from c =
        .error (.InvalidValue "signifyd is not a routable connector")
    else if c = .Riskified then
      RoutableConnectors.foreign_try_from c =
        .error (.InvalidValue "riskified is not a routable connector")
    else if c = .Threedsecureio then
      RoutableConnectors.foreign_try_from c =
        .error (.InvalidValue "threedsecureio is not a routable connector")
    else
      (RoutableConnectors.foreign_try_from c).map RoutableConnectors.name =
        .ok c.name := by
  cases c <;> decide

/-- C10: the refund, mandate and dispute webhook mappers accept pairwise
disjoint tag sets: no incoming webhook tag is accepted by more than one of
the three, and each mapper, where it does not accept, fails with an
`IncorrectValueProvided` error. -/
theorem webhook_domain_mappers_disjoint (e : IncomingWebhookEvent) :
    okIndicator (RefundStatus.foreign_try_from e) +
      okIndicator (MandateStatus.foreign_try_from e) +
      okIndicator (DisputeStatus.foreign_try_from e) ≤ 1 ∧
    (okIndicator (RefundStatus.foreign_try_from e) = 1 ∨
      isIncorrectValueError (RefundStatus.foreign_try_from e) = true) ∧
    (okIndicator (MandateStatus.foreign_try_from e) = 1 ∨
      isIncorrectValueError (MandateStatus.foreign_try_from e) = true) ∧
    (okIndicator (DisputeStatus.foreign_try_from e) = 1 ∨
      isIncorrectValueError (DisputeStatus.foreign_try_from e) = true) := by
  cases e <;> decide

/-- C3: whenever the payment-confirm-source header parses to a
`PaymentSource` flagged for internal use only, the header validator
rejects the request with `InvalidRequestData`, whatever the other headers
hold — no `HeaderPayload` is produced. -/
theorem headerPayload_rejects_internal_confirm_source
    (headers : HeaderMap) (raw : String) (s : PaymentSource)
    (hfind : getHeaderValue X_PAYMENT_CONFIRM_SOURCE headers = some raw)
    (hparse : PaymentSource.parse raw = some s)
    (hflag : s.is_for_internal_use_only = true) :
    HeaderPayload.foreign_try_from headers =
      .error (.InvalidRequestData invalidConfirmSourceMessage) := by
  unfold HeaderPayload.foreign_try_from parsePaymentConfirmSource
  rw [hfind]
  simp only [hparse]
  simp [confirmSourceIsInternal, hflag]

/-- Witness for C3: a header map asserting the internal-only source
"webhook" is rejected. -/
theorem headerPayload_rejects_internal_confirm_source_witness :
    HeaderPayload.foreign_try_from [(X_PAYMENT_CONFIRM_SOURCE, "webhook")] =
      .error (.InvalidRequestData invalidConfirmSourceMessage) :=
  headerPayload_rejects_internal_confirm_source
    [(X_PAYMENT_CONFIRM_SOURCE, "webhook")] "webhook" .Webhook rfl rfl rfl

/-- C8: every successfully built `HeaderPayload` carries
`x_hs_latency = some true` exactly when the latency-tracing header is
present with the literal value "true", and `some false` in every other
case (header absent or any other value) — it is never `none`. -/
theorem headerPayload_x_hs_latency_flag
    (headers : HeaderMap) (p : HeaderPayload)
    (h : HeaderPayload.foreign_try_from headers = .ok p) :
    (p.x_hs_latency = some true ↔
      getHeaderValue X_HS_LATENCY headers = some "true") ∧
    (getHeaderValue X_HS_LATENCY headers = some "true" ∨
      p.x_hs_latency = some false) := by
  unfold HeaderPayload.foreign_try_from at h
  cases hp : parsePaymentConfirmSource headers with
  | error e => rw [hp] at h; exact absurd h (by simp)
  | ok v =>
    rw [hp] at h
    by_cases hv : confirmSourceIsInternal v = true
    · simp [hv] at h
    · simp only [hv, if_neg, Bool.not_eq_true, ite_false] at h
      have hx : p.x_hs_latency =
          some (getHeaderValue X_HS_LATENCY headers == some "true") := by
        cases h
        rfl
      rw [hx]
      by_cases ht : getHeaderValue X_HS_LATENCY headers = some "true"
      · simp [ht]
      · simp [ht, beq_iff_eq]

/-- Witness for C8: the empty header map builds a payload whose latency
flag is `some false`. -/
theorem headerPayload_x_hs_latency_flag_witness :
    ((({ payment_confirm_source := none
         client_source := none
         client_version := none
         x_hs_latency := some false } : HeaderPayload).x_hs_latency =
          some true ↔
        getHeaderValue X_HS_LATENCY [] = some "true") ∧
      (getHeaderValue X_HS_LATENCY [] = some "true" ∨
        ({ payment_confirm_source := none
           client_source := none
           client_version := none
           x_hs_latency := some false } : HeaderPayload).x_hs_latency =
          some false)) :=
  headerPayload_x_hs_latency_flag []
    { payment_confirm_source := none
      client_source := none
      client_version := none
      x_hs_latency := some false } rfl

end Hyperswitch
